import Mathlib

/-!
Verification of the POI dashboard core (`src/streamlit_app.py`).

The script is a linear pipeline: connect, fetch, sanitize, derive cascading
filter options, filter, render.  We embed the data-transformation core and the
control flow of one interaction cycle as pure Lean functions and prove the
spec's testable properties about them.

Modelling conventions:
* A dataframe is a `List PoiRecord` in source-row order.
* A raw latitude/longitude cell is a `Cell`: an already-numeric value, an
  arbitrary text value, or a null.  `pd.to_numeric(..., errors="coerce")`
  is embedded as the total function `Cell.coerce`: numeric cells survive,
  text cells are parsed (numeric domain modelled by integers via
  `String.toInt?`; no claim depends on fractional values), and anything
  unparsable becomes `Cell.null` — coercion never raises, by totality.
* Missing text fields (`CATEGORY_MAIN`, `STATE`, `CITY`) are `Option String`;
  pandas `dropna` / NaN-propagation corresponds to the `none` case.
* Streamlit effects are reified in `Outcome`: `errorHalt` is an
  `st.error`/`st.warning` followed by `st.stop`; `uncaught` is an exception
  that propagates out of the script (no surrounding handler); `page` is a
  completed render.  `st.slider(min_value=1, max_value=len(filtered_df), ...)`
  raises `StreamlitAPIException` when the filtered frame is empty
  (min 1 exceeds max 0), which `runCycle` reflects as `uncaught`.
-/

namespace PoiApp

/-- Cell of the raw LATITUDE/LONGITUDE columns before coercion. -/
inductive Cell where
  | num (v : Int)
  | txt (s : String)
  | null
deriving DecidableEq, Repr

/-- Numeric view of a cell, as produced by `pd.to_numeric(errors="coerce")`:
numeric cells pass through, parsable text is parsed, everything else is
missing. -/
def Cell.toNumeric : Cell → Option Int
  | .num v => some v
  | .txt s => s.toInt?
  | .null => none

/-- Result of coercing a cell in place (the column assignment on lines 37-38
of the script): a numeric value, or null when coercion fails. -/
def Cell.coerce (c : Cell) : Cell :=
  match c.toNumeric with
  | some v => .num v
  | none => .null

/-- True when the cell is the missing marker (`NaN` in the dataframe). -/
def Cell.isNull : Cell → Bool
  | .null => true
  | _ => false

/-- One row of the POI_ADDRESS_US table, restricted to the columns the core
reads. -/
structure PoiRecord where
  poi_name : String
  category_main : Option String
  state : Option String
  city : Option String
  latitude : Cell
  longitude : Cell
deriving DecidableEq, Repr

/-- Row with LATITUDE and LONGITUDE replaced by their coerced values
(lines 37-38). -/
def coerceGeo (r : PoiRecord) : PoiRecord :=
  { r with latitude := r.latitude.coerce, longitude := r.longitude.coerce }

/-- Rows whose coerced latitude and longitude are both present survive
`dropna(subset=["LATITUDE", "LONGITUDE"])` (line 39). -/
def geoPresent (r : PoiRecord) : Bool :=
  !r.latitude.isNull && !r.longitude.isNull

/-- Lines 37-39: coerce the two geospatial columns, then drop rows where
either is missing. -/
def sanitize (D : List PoiRecord) : List PoiRecord :=
  (D.map coerceGeo).filter geoPresent

/-- Insert a string into a sorted list, keeping it sorted. -/
def insertSorted (x : String) : List String → List String
  | [] => [x]
  | y :: ys => if x ≤ y then x :: y :: ys else y :: insertSorted x ys

/-- Ascending lexicographic sort on labels (Python `sorted`). -/
def sortStrings : List String → List String
  | [] => []
  | x :: xs => insertSorted x (sortStrings xs)

/-- Distinct labels in ascending order: `sorted(series.dropna().unique())`. -/
def uniqueSorted (l : List String) : List String :=
  sortStrings l.dedup

/-- Line 43: `sorted(df["CATEGORY_MAIN"].dropna().unique())`. -/
def category_options (D : List PoiRecord) : List String :=
  uniqueSorted (D.filterMap (·.category_main))

/-- Line 49: `df[df["CATEGORY_MAIN"] == category]`; a missing category never
equals the selected label. -/
def filterCategory (D : List PoiRecord) (c : String) : List PoiRecord :=
  D.filter (fun r => r.category_main == some c)

/-- Lines 53-54: keep rows matching the selected state, unless the "All"
sentinel was chosen. -/
def filterState (D : List PoiRecord) (s : String) : List PoiRecord :=
  if s = "All" then D else D.filter (fun r => r.state == some s)

/-- Lines 58-59: keep rows matching the selected city, unless the "All"
sentinel was chosen. -/
def filterCity (D : List PoiRecord) (ci : String) : List PoiRecord :=
  if ci = "All" then D else D.filter (fun r => r.city == some ci)

/-- Line 51: `["All"] + sorted(filtered_df["STATE"].dropna().unique())`,
where `filtered_df` is already restricted to the selected category. -/
def state_options (D : List PoiRecord) (c : String) : List String :=
  "All" :: uniqueSorted ((filterCategory D c).filterMap (·.state))

/-- Line 56: city options are derived from the frame already filtered by
category and (when constrained) state. -/
def city_options (D : List PoiRecord) (c s : String) : List String :=
  "All" :: uniqueSorted ((filterState (filterCategory D c) s).filterMap (·.city))

/-- Lines 49-59: the full hierarchical filter for one selection. -/
def applyFilters (D : List PoiRecord) (c s ci : String) : List PoiRecord :=
  filterCity (filterState (filterCategory D c) s) ci

/-- Occurrence count of one label in a column, as `value_counts` computes it:
missing values are dropped, then occurrences of the label are counted. -/
def count_by (D : List PoiRecord) (f : PoiRecord → Option String) (label : String) : Nat :=
  ((D.filterMap f).count label)

/-- The `value_counts` mapping of a column as an association list: one entry
per distinct non-missing label, carrying its occurrence count.  (pandas
orders the entries by descending count; the spec's Aggregator guarantees no
ordering, and no claim depends on one, so first-occurrence order is used.) -/
def value_counts (vals : List (Option String)) : List (String × Nat) :=
  let xs := vals.filterMap id
  xs.dedup.map (fun l => (l, xs.count l))

/-- Rendered output of a cycle that runs to completion. -/
structure Page where
  totalPois : Nat
  mapRendered : Bool
  noDataWarning : Bool
  table : List PoiRecord
  categoryCounts : List (String × Nat)
  stateCounts : List (String × Nat)
deriving DecidableEq, Repr

/-- Observable outcome of one interaction cycle. -/
inductive Outcome where
  | errorHalt (msg : String)
  | uncaught (msg : String)
  | page (p : Page)
deriving DecidableEq, Repr

/-- Message shown by `st.error` on connection failure (line 28). -/
def connectErrMsg : String :=
  "Failed to connect to Snowflake. Please check your credentials."

/-- Message shown by `st.warning` when no categories exist (line 45). -/
def noCategoriesMsg : String := "No categories found in the data."

/-- Exception raised by `st.slider` on line 61 when the filtered frame is
empty: min_value 1 exceeds max_value 0. -/
def sliderExcMsg : String :=
  "StreamlitAPIException: slider min_value 1 exceeds max_value 0"

/-- One interaction cycle of the script, lines 25-118.  `connect` is the
result of `get_connection()`; `queryRes` is the result of `pd.read_sql`
(only consulted when the connection succeeded); `c`, `s`, `ci` are the
selectbox values and `rowCount` the slider value. -/
def runCycle (connect : Except String Unit)
    (queryRes : Except String (List PoiRecord))
    (c s ci : String) (rowCount : Nat) : Outcome :=
  match connect with
  | .error _ => .errorHalt connectErrMsg
  | .ok _ =>
    match queryRes with
    | .error e => .uncaught e
    | .ok raw =>
      let df := sanitize raw
      if category_options df = [] then .errorHalt noCategoriesMsg
      else
        let filtered := applyFilters df c s ci
        if filtered.isEmpty then .uncaught sliderExcMsg
        else .page {
          totalPois := filtered.length
          mapRendered := !filtered.isEmpty
          noDataWarning := filtered.isEmpty
          table := filtered.take rowCount
          categoryCounts := value_counts (df.map (·.category_main))
          stateCounts := value_counts (df.map (·.state)) }

/-- True when the outcome is a caught, surfaced error (`st.error`/`st.warning`
followed by `st.stop`), as opposed to an uncaught exception or a full page. -/
def Outcome.isCaughtError : Outcome → Bool
  | .errorHalt _ => true
  | _ => false

/-- True when the outcome is a rendered page whose map slot holds the
"No data available for the selected filters." warning. -/
def Outcome.rendersNoData : Outcome → Bool
  | .page p => p.noDataWarning
  | _ => false

/-- Identity of a record: every field the core interprets except the two
geospatial cells that numeric coercion rewrites. -/
def sameIdentity (r r' : PoiRecord) : Prop :=
  r.poi_name = r'.poi_name ∧ r.category_main = r'.category_main ∧
    r.state = r'.state ∧ r.city = r'.city

/-- Sample row with valid coordinates, used to exercise the theorems. -/
def recA : PoiRecord :=
  ⟨"Alamo", some "A", some "TX", some "Austin", .num 30, .num (-97)⟩

/-- Sample row whose latitude cell cannot be coerced to a number. -/
def recBad : PoiRecord :=
  ⟨"Broken", some "A", some "TX", some "Dallas", .txt "oops", .num 2⟩

/-- Page produced by a cycle over `[recA]` with any selection keeping the
row. -/
def samplePage : Page :=
  ⟨1, true, false, [recA], [("A", 1)], [("TX", 1)]⟩

end PoiApp

namespace PoiApp

/-! ### Helper lemmas -/

lemma mem_insertSorted {x y : String} {l : List String} :
    y ∈ insertSorted x l ↔ y = x ∨ y ∈ l := by
  induction l with
  | nil => simp [insertSorted]
  | cons a as ih =>
    by_cases h : x ≤ a
    · simp [insertSorted, h]
    · simp [insertSorted, h, ih]
      tauto

lemma mem_sortStrings {y : String} {l : List String} :
    y ∈ sortStrings l ↔ y ∈ l := by
  induction l with
  | nil => exact Iff.rfl
  | cons a as ih => simp [sortStrings, mem_insertSorted, ih]

lemma mem_uniqueSorted {y : String} {l : List String} :
    y ∈ uniqueSorted l ↔ y ∈ l := by
  simp [uniqueSorted, mem_sortStrings]

lemma filterCategory_filterState (D : List PoiRecord) (c s : String) :
    filterCategory (filterState D s) c = filterState (filterCategory D c) s := by
  by_cases h : s = "All"
  · simp [filterState, h]
  · simp only [filterState, if_neg h, filterCategory]
    exact List.filter_comm _ _ _

lemma filterCategory_filterCity (D : List PoiRecord) (c ci : String) :
    filterCategory (filterCity D ci) c = filterCity (filterCategory D c) ci := by
  by_cases h : ci = "All"
  · simp [filterCity, h]
  · simp only [filterCity, if_neg h, filterCategory]
    exact List.filter_comm _ _ _

lemma filterState_filterCity (D : List PoiRecord) (s ci : String) :
    filterState (filterCity D ci) s = filterCity (filterState D s) ci := by
  by_cases h : ci = "All"
  · simp [filterCity, h]
  · by_cases hs : s = "All"
    · simp [filterState, hs]
    · simp only [filterCity, filterState, if_neg h, if_neg hs]
      exact List.filter_comm _ _ _

lemma filterCategory_idem (D : List PoiRecord) (c : String) :
    filterCategory (filterCategory D c) c = filterCategory D c := by
  simp [filterCategory, List.filter_filter]

lemma filterState_idem (D : List PoiRecord) (s : String) :
    filterState (filterState D s) s = filterState D s := by
  by_cases h : s = "All"
  · simp [filterState, h]
  · simp [filterState, h, List.filter_filter]

lemma filterCity_idem (D : List PoiRecord) (ci : String) :
    filterCity (filterCity D ci) ci = filterCity D ci := by
  by_cases h : ci = "All"
  · simp [filterCity, h]
  · simp [filterCity, h, List.filter_filter]

lemma filterState_sublist (D : List PoiRecord) (s : String) :
    (filterState D s).Sublist D := by
  by_cases h : s = "All"
  · simp [filterState, h]
  · simp only [filterState, if_neg h]
    exact List.filter_sublist _

lemma filterCity_sublist (D : List PoiRecord) (ci : String) :
    (filterCity D ci).Sublist D := by
  by_cases h : ci = "All"
  · simp [filterCity, h]
  · simp only [filterCity, if_neg h]
    exact List.filter_sublist _

/-! ### Claims -/

/-- Claim C7: `apply` is idempotent — re-applying the same selection to an
already-filtered dataset returns it unchanged
(`apply(apply(D,c,s,ci), c,s,ci) == apply(D,c,s,ci)`). -/
theorem applyFilters_idem (D : List PoiRecord) (c s ci : String) :
    applyFilters (applyFilters D c s ci) c s ci = applyFilters D c s ci := by
  unfold applyFilters
  rw [filterCategory_filterCity, filterCategory_filterState, filterCategory_idem,
    filterState_filterCity, filterState_idem, filterCity_idem]

/-- Claim C10: for every dataset and every selection, the filtered result is
an order-preserving subsequence of the input: every output record occurs in
the input, none is duplicated or modified, and relative order is kept. -/
theorem applyFilters_sublist (D : List PoiRecord) (c s ci : String) :
    (applyFilters D c s ci).Sublist D := by
  exact ((filterCity_sublist _ ci).trans (filterState_sublist _ s)).trans
    (List.filter_sublist D)

end PoiApp

namespace PoiApp

lemma runCycle_ok_eq (D : List PoiRecord) (c s ci : String) (n : Nat) :
    runCycle (.ok ()) (.ok D) c s ci n =
      if category_options (sanitize D) = [] then .errorHalt noCategoriesMsg
      else if (applyFilters (sanitize D) c s ci).isEmpty then .uncaught sliderExcMsg
      else .page {
        totalPois := (applyFilters (sanitize D) c s ci).length
        mapRendered := !(applyFilters (sanitize D) c s ci).isEmpty
        noDataWarning := (applyFilters (sanitize D) c s ci).isEmpty
        table := (applyFilters (sanitize D) c s ci).take n
        categoryCounts := value_counts ((sanitize D).map (·.category_main))
        stateCounts := value_counts ((sanitize D).map (·.state)) } := rfl

lemma runCycle_page_counts (D : List PoiRecord) (c s ci : String) (n : Nat) (p : Page)
    (h : runCycle (.ok ()) (.ok D) c s ci n = .page p) :
    p.categoryCounts = value_counts ((sanitize D).map (·.category_main)) ∧
    p.stateCounts = value_counts ((sanitize D).map (·.state)) := by
  rw [runCycle_ok_eq] at h
  split at h
  · exact Outcome.noConfusion h
  · split at h
    · exact Outcome.noConfusion h
    · cases h
      exact ⟨rfl, rfl⟩

lemma Cell.coerce_num_or_null (cl : Cell) :
    (∃ v, cl.coerce = Cell.num v) ∨ cl.coerce = Cell.null := by
  rcases h : cl.toNumeric with _ | v
  · right
    simp [Cell.coerce, h]
  · left
    exact ⟨v, by simp [Cell.coerce, h]⟩

lemma length_filterMap_isSome {α β : Type} (f : α → Option β) (l : List α) :
    (l.filterMap f).length = (l.filter (fun a => (f a).isSome)).length := by
  induction l with
  | nil => rfl
  | cons a as ih => cases h : f a <;> simp [List.filterMap_cons, List.filter_cons, h, ih]

/-- Claim C4 (amended): a failure to establish the connection is caught and
surfaced as the user-visible `st.error` message and halts the cycle with no
rendering; a failure executing the query, by contrast, is not caught — it
propagates as an unhandled exception (which also prevents any rendering,
but without the friendly message). -/
theorem connection_error_handling (e : String) (q : Except String (List PoiRecord))
    (c s ci : String) (n : Nat) :
    runCycle (.error e) q c s ci n = .errorHalt connectErrMsg ∧
    runCycle (.ok ()) (.error e) c s ci n = .uncaught e :=
  ⟨rfl, rfl⟩

/-- Claim C4 counterexample: the query fails while the connection is fine;
the failure is not caught or surfaced as a user-visible error message —
`pd.read_sql` on line 33 sits outside the try/except of lines 25-29. -/
theorem query_error_uncaught_counterexample :
    (runCycle (.ok ()) (.error "query failed") "A" "All" "All" 1).isCaughtError
      = false := rfl

/-- Claim C8: when no non-missing category label exists anywhere (for
instance with an empty source table), the cycle halts with the user-visible
warning and renders neither map nor table (the outcome is an `errorHalt`,
not a `page`). -/
theorem empty_categories_halt (D : List PoiRecord) (c s ci : String) (n : Nat)
    (h : category_options (sanitize D) = []) :
    runCycle (.ok ()) (.ok D) c s ci n = .errorHalt noCategoriesMsg := by
  rw [runCycle_ok_eq, if_pos h]

/-- Witness for C8: the empty source table scenario. -/
theorem empty_categories_halt_witness :
    category_options (sanitize ([] : List PoiRecord)) = [] ∧
    runCycle (.ok ()) (.ok ([] : List PoiRecord)) "A" "All" "All" 1
      = .errorHalt noCategoriesMsg :=
  ⟨rfl, empty_categories_halt [] "A" "All" "All" 1 rfl⟩

/-- Claim C3 (amended): a filter selection matching zero records does not
render the "no data" warning or the aggregates — the row-count slider on
line 61 raises (min_value 1 exceeds max_value 0) before any of those
sections run, so the cycle dies with an uncaught exception.  (Such a
selection can never arise from the derived option lists; see the C9
theorem.) -/
theorem empty_filter_raises_slider (D : List PoiRecord) (c s ci : String) (n : Nat)
    (hopt : category_options (sanitize D) ≠ [])
    (hempty : applyFilters (sanitize D) c s ci = []) :
    runCycle (.ok ()) (.ok D) c s ci n = .uncaught sliderExcMsg := by
  rw [runCycle_ok_eq, if_neg hopt, if_pos (by simp [hempty])]

/-- Witness for the amended C3: category "B" matches nothing in `[recA]`. -/
theorem empty_filter_raises_slider_witness :
    category_options (sanitize [recA]) ≠ [] ∧
    applyFilters (sanitize [recA]) "B" "All" "All" = [] ∧
    runCycle (.ok ()) (.ok [recA]) "B" "All" "All" 1 = .uncaught sliderExcMsg :=
  ⟨by decide, by decide,
    empty_filter_raises_slider [recA] "B" "All" "All" 1 (by decide) (by decide)⟩

/-- Claim C3 counterexample: the selection ("B", "All", "All") over `[recA]`
matches zero records, yet the cycle renders no "no data" message and no
aggregates — it ends in an uncaught slider exception. -/
theorem empty_filter_no_data_counterexample :
    applyFilters (sanitize [recA]) "B" "All" "All" = [] ∧
    (runCycle (.ok ()) (.ok [recA]) "B" "All" "All" 1).rendersNoData = false ∧
    runCycle (.ok ()) (.ok [recA]) "B" "All" "All" 1 = .uncaught sliderExcMsg :=
  ⟨by decide, by decide, by decide⟩

/-- Claim C6: the category and state aggregates depend only on the sanitized
dataset — two completed cycles over the same dataset with different
selections (category, state, city, row limit) carry identical
`categoryCounts` and `stateCounts`. -/
theorem aggregates_filter_independent (D : List PoiRecord)
    (c1 s1 ci1 : String) (n1 : Nat) (c2 s2 ci2 : String) (n2 : Nat) (p1 p2 : Page)
    (h1 : runCycle (.ok ()) (.ok D) c1 s1 ci1 n1 = .page p1)
    (h2 : runCycle (.ok ()) (.ok D) c2 s2 ci2 n2 = .page p2) :
    p1.categoryCounts = p2.categoryCounts ∧ p1.stateCounts = p2.stateCounts := by
  rcases runCycle_page_counts D c1 s1 ci1 n1 p1 h1 with ⟨a1, b1⟩
  rcases runCycle_page_counts D c2 s2 ci2 n2 p2 h2 with ⟨a2, b2⟩
  exact ⟨a1.trans a2.symm, b1.trans b2.symm⟩

/-- Witness for C6: two different selections over `[recA]`. -/
theorem aggregates_filter_independent_witness :
    runCycle (.ok ()) (.ok [recA]) "A" "All" "All" 1 = .page samplePage ∧
    runCycle (.ok ()) (.ok [recA]) "A" "TX" "Austin" 1 = .page samplePage ∧
    (samplePage.categoryCounts = samplePage.categoryCounts ∧
      samplePage.stateCounts = samplePage.stateCounts) :=
  ⟨by decide, by decide,
    aggregates_filter_independent [recA] "A" "All" "All" 1 "A" "TX" "Austin" 1
      samplePage samplePage (by decide) (by decide)⟩

end PoiApp

namespace PoiApp

/-- Claim C1: each option list is derived from the already-filtered subset —
every non-sentinel state option occurs as the state of some record whose
category equals the selected category, and every non-sentinel city option
occurs as the city of some record already matching the selected category
and (when constrained) state. -/
theorem state_city_options_subset (D : List PoiRecord) (c s l : String) :
    (l ∈ state_options D c →
      l = "All" ∨ ∃ r ∈ filterCategory D c, r.state = some l) ∧
    (l ∈ city_options D c s →
      l = "All" ∨ ∃ r ∈ filterState (filterCategory D c) s, r.city = some l) := by
  constructor
  · intro hl
    rcases List.mem_cons.1 hl with h | h
    · exact Or.inl h
    · right
      rcases List.mem_filterMap.1 (mem_uniqueSorted.1 h) with ⟨r, hr, hrs⟩
      exact ⟨r, hr, hrs⟩
  · intro hl
    rcases List.mem_cons.1 hl with h | h
    · exact Or.inl h
    · right
      rcases List.mem_filterMap.1 (mem_uniqueSorted.1 h) with ⟨r, hr, hrs⟩
      exact ⟨r, hr, hrs⟩

/-- Witness for C1: "TX" is offered for category "A" over `[recA]` and is
indeed the state of a record of that category. -/
theorem state_city_options_subset_witness :
    "TX" ∈ state_options [recA] "A" ∧
    ("TX" = "All" ∨ ∃ r ∈ filterCategory [recA] "A", r.state = some "TX") :=
  ⟨by decide, (state_city_options_subset [recA] "A" "All" "TX").1 (by decide)⟩

/-- Claim C2: sanitize keeps exactly the rows whose coerced latitude and
longitude are genuine numbers; the output is the coercion image of an
order-preserving subsequence of the input, and coercion never changes a
record's identity fields (name, category, state, city).  Coercion itself is
a total function, so a coercion failure can never raise. -/
theorem sanitize_correct (D : List PoiRecord) :
    (∀ r ∈ sanitize D,
      (∃ v, r.latitude = Cell.num v) ∧ ∃ v, r.longitude = Cell.num v) ∧
    sanitize D = (D.filter (fun r => geoPresent (coerceGeo r))).map coerceGeo ∧
    (D.filter (fun r => geoPresent (coerceGeo r))).Sublist D ∧
    (∀ r, sameIdentity (coerceGeo r) r) := by
  refine ⟨?_, ?_, List.filter_sublist D, fun r => ⟨rfl, rfl, rfl, rfl⟩⟩
  · intro r hr
    rcases List.mem_filter.1 hr with ⟨hmem, hgeo⟩
    rcases List.mem_map.1 hmem with ⟨r₀, _, rfl⟩
    constructor
    · rcases Cell.coerce_num_or_null r₀.latitude with ⟨v, hv⟩ | hnull
      · exact ⟨v, hv⟩
      · exfalso
        simp [geoPresent, coerceGeo, hnull, Cell.isNull] at hgeo
    · rcases Cell.coerce_num_or_null r₀.longitude with ⟨v, hv⟩ | hnull
      · exact ⟨v, hv⟩
      · exfalso
        simp [geoPresent, coerceGeo, hnull, Cell.isNull] at hgeo
  · unfold sanitize
    rw [List.filter_map]
    rfl

/-- Witness for C2: the surviving row of a two-row dataset whose second row
has an unparsable latitude. -/
theorem sanitize_correct_witness :
    recA ∈ sanitize [recA, recBad] ∧
    ((∃ v, recA.latitude = Cell.num v) ∧ ∃ v, recA.longitude = Cell.num v) :=
  ⟨by decide, (sanitize_correct [recA, recBad]).1 recA (by decide)⟩

/-- Claim C5: the per-label counts of a column, summed over all labels that
occur, equal the number of records whose value for that column is
non-missing; and the count of any label tallies exactly the records carrying
that label, so records with a missing value contribute to no label. -/
theorem count_by_partition (D : List PoiRecord) (f : PoiRecord → Option String) :
    ((D.filterMap f).dedup.map (count_by D f)).sum
        = (D.filter (fun r => (f r).isSome)).length ∧
    ∀ label, count_by D f label = (D.filter (fun r => f r == some label)).length := by
  constructor
  · rw [← length_filterMap_isSome]
    exact List.sum_map_count_dedup_eq_length _
  · intro label
    rw [count_by, List.count_filterMap, List.countP_eq_length_filter]

/-- Claim C9: a selection whose category comes from the derived category
options, whose state is "All" or comes from the derived state options, and
whose city is "All" or comes from the derived city options always matches
at least one record; the cycle therefore completes as a page whose map is
rendered and whose "no data" branch is not taken, and the slider bound
`max_value = len(filtered_df)` is at least `min_value = 1`. -/
theorem options_selection_nonempty (D : List PoiRecord) (c s ci : String) (n : Nat)
    (hc : c ∈ category_options (sanitize D))
    (hs : s ∈ state_options (sanitize D) c)
    (hci : ci ∈ city_options (sanitize D) c s) :
    1 ≤ (applyFilters (sanitize D) c s ci).length ∧
    ∃ p, runCycle (.ok ()) (.ok D) c s ci n = .page p ∧
      p.noDataWarning = false ∧ p.mapRendered = true := by
  have h1 : ∃ r, r ∈ filterCategory (sanitize D) c := by
    rcases List.mem_filterMap.1 (mem_uniqueSorted.1 hc) with ⟨r, hr, hrc⟩
    exact ⟨r, List.mem_filter.2 ⟨hr, by simp [hrc]⟩⟩
  have h2 : ∃ r, r ∈ filterState (filterCategory (sanitize D) c) s := by
    by_cases hAll : s = "All"
    · simpa [filterState, hAll] using h1
    · have hs' : s ∈ uniqueSorted
          ((filterCategory (sanitize D) c).filterMap (·.state)) := by
        rcases List.mem_cons.1 hs with h | h
        · exact absurd h hAll
        · exact h
      rcases List.mem_filterMap.1 (mem_uniqueSorted.1 hs') with ⟨r, hr, hrs⟩
      refine ⟨r, ?_⟩
      simp only [filterState, if_neg hAll]
      exact List.mem_filter.2 ⟨hr, by simp [hrs]⟩
  have h3 : ∃ r, r ∈ applyFilters (sanitize D) c s ci := by
    by_cases hAll : ci = "All"
    · simpa [applyFilters, filterCity, hAll] using h2
    · have hci' : ci ∈ uniqueSorted
          ((filterState (filterCategory (sanitize D) c) s).filterMap (·.city)) := by
        rcases List.mem_cons.1 hci with h | h
        · exact absurd h hAll
        · exact h
      rcases List.mem_filterMap.1 (mem_uniqueSorted.1 hci') with ⟨r, hr, hrc⟩
      refine ⟨r, ?_⟩
      simp only [applyFilters, filterCity, if_neg hAll]
      exact List.mem_filter.2 ⟨hr, by simp [hrc]⟩
  rcases h3 with ⟨r, hr⟩
  have hlen : 1 ≤ (applyFilters (sanitize D) c s ci).length :=
    List.length_pos_of_mem hr
  have hne : category_options (sanitize D) ≠ [] := List.ne_nil_of_mem hc
  have hnil : applyFilters (sanitize D) c s ci ≠ [] := List.ne_nil_of_mem hr
  have hfe : (applyFilters (sanitize D) c s ci).isEmpty = false := by
    cases h : applyFilters (sanitize D) c s ci
    · exact absurd h hnil
    · rfl
  refine ⟨hlen,
    ⟨{ totalPois := (applyFilters (sanitize D) c s ci).length
       mapRendered := !(applyFilters (sanitize D) c s ci).isEmpty
       noDataWarning := (applyFilters (sanitize D) c s ci).isEmpty
       table := (applyFilters (sanitize D) c s ci).take n
       categoryCounts := value_counts ((sanitize D).map (·.category_main))
       stateCounts := value_counts ((sanitize D).map (·.state)) }, ?_, ?_, ?_⟩⟩
  · rw [runCycle_ok_eq, if_neg hne, if_neg (by simp [hfe])]
  · exact hfe
  · simp [hfe]

/-- Witness for C9: the selection ("A", "TX", "Austin") drawn from the
option lists over `[recA]`. -/
theorem options_selection_nonempty_witness :
    ("A" ∈ category_options (sanitize [recA]) ∧
      "TX" ∈ state_options (sanitize [recA]) "A" ∧
      "Austin" ∈ city_options (sanitize [recA]) "A" "TX") ∧
    (1 ≤ (applyFilters (sanitize [recA]) "A" "TX" "Austin").length ∧
      ∃ p, runCycle (.ok ()) (.ok [recA]) "A" "TX" "Austin" 1 = .page p ∧
        p.noDataWarning = false ∧ p.mapRendered = true) :=
  ⟨⟨by decide, by decide, by decide⟩,
    options_selection_nonempty [recA] "A" "TX" "Austin" 1
      (by decide) (by decide) (by decide)⟩

end PoiApp
